import Mathlib

/-!
# Verification of the exposure-notifications verification server core

Shallow embedding of the two core Go files:

* `pkg/middleware` (RequireAuth / RequireRealmAdmin / RequireAdmin handlers),
* `pkg/controller/issueapi/issue.go` (the code-issuance HTTP handler),

together with a spec-modelled version of the `otp` generate-and-persist
retry loop (that package is not part of the sources examined here; only its
caller is).

Time is modelled as `Nat` (seconds since the Unix epoch); Go durations are
likewise `Nat` seconds.  External collaborators (identity provider,
credential store, notification channel) are modelled as oracle function
fields of an environment record, each returning `Except`, mirroring the
Go `(value, error)` returns.
-/

namespace ENVerification

/-- Decidable equality for `Except`, used to make the observable outcomes
of the embedded handlers decidable data. -/
def exceptDecEq {ε α : Type} [DecidableEq ε] [DecidableEq α] :
    (a b : Except ε α) → Decidable (a = b)
  | .error a, .error b =>
    if h : a = b then .isTrue (by rw [h]) else .isFalse (by intro he; cases he; exact h rfl)
  | .error _, .ok _ => .isFalse (by intro h; cases h)
  | .ok _, .error _ => .isFalse (by intro h; cases h)
  | .ok a, .ok b =>
    if h : a = b then .isTrue (by rw [h]) else .isFalse (by intro he; cases he; exact h rfl)

instance {ε α : Type} [DecidableEq ε] [DecidableEq α] : DecidableEq (Except ε α) :=
  exceptDecEq

/-- A verification-server user (`database.User`).  `adminRealms` models the
spec's `CanAdminRealm(realmID) -> bool` capability set. -/
structure User where
  email : String
  disabled : Bool
  admin : Bool
  adminRealms : List Nat
  lastRevokeCheck : Nat
deriving DecidableEq, Repr

/-- Modelled from the spec: `database.User.CanAdminRealm` — a User may
administer zero or more realms. -/
def User.canAdminRealm (u : User) (realmID : Nat) : Bool :=
  u.adminRealms.contains realmID

/-- A tenant (`database.Realm`). -/
structure Realm where
  id : Nat
deriving DecidableEq, Repr

/-- A machine credential bound to one realm (`database.AuthorizedApp`). -/
structure AuthorizedApp where
  realmID : Nat
deriving DecidableEq, Repr

/-- A value found in the session token's claims map.  The Go code only
distinguishes string claims from everything else (`emailRaw.(string)`). -/
inductive ClaimValue where
  | str (s : String)
  | nonString
deriving DecidableEq, Repr

/-- A verified session token (`auth.Token`): its claims map. -/
structure Token where
  claims : List (String × ClaimValue)
deriving DecidableEq, Repr

/-- `token.Claims[key]` lookup. -/
def Token.claimLookup (t : Token) (key : String) : Option ClaimValue :=
  (t.claims.find? (fun p => p.1 == key)).map (fun p => p.2)

/-- The error taxonomy produced by the `RequireAuth` closure, one
constructor per `return` site of the anonymous function in
`RequireAuthHandler.Handle`. -/
inductive AuthError where
  | failedGetCookie (e : String)
  | failedVerifyCookie (e : String)
  | missingEmail
  | emailNotString
  | userNotFound
  | userDisabled
  | revokeCheckFailed (e : String)
  | saveUserFailed (e : String)
deriving DecidableEq, Repr

/-- External collaborators of the middleware: identity provider, credential
store, clock, revocation authority, and the configured revoke-check TTL. -/
structure AuthEnv where
  verifyCookie : String → Except String Token
  findUser : String → Except Unit (Option User)
  now : Nat
  checkRevoked : String → Except String Unit
  saveUser : User → Except String Unit
  ttl : Nat

/-- Everything the middleware observes on the incoming request: the result
of `r.Cookie("session")`, JSON content-type negotiation, and the
request-scoped context values. -/
structure MWRequest where
  cookie : Except String String
  isJSON : Bool
  ctxUser : Option User
  ctxRealm : Option Realm
deriving DecidableEq, Repr

/-- Observable outcome of one run of the `RequireAuth` closure:
the Go closure's returned error (or the user that was bound to the request
context), the number of `VerifySessionCookieAndCheckRevoked` calls made,
and the arguments of every `SaveUser` call made. -/
structure AuthOutcome where
  result : Except AuthError User
  revokeChecks : Nat
  saveCalls : List User
deriving DecidableEq, Repr

/-- The anonymous `func() error` inside `RequireAuthHandler.Handle`,
together with the user it binds to the request context on success.
Mirrors part_000 lines 143–195 branch for branch. -/
def requireAuthResolve (env : AuthEnv) (cookie : Except String String) : AuthOutcome :=
  match cookie with
  | .error e => ⟨.error (.failedGetCookie e), 0, []⟩
  | .ok cookieValue =>
    match env.verifyCookie cookieValue with
    | .error e => ⟨.error (.failedVerifyCookie e), 0, []⟩
    | .ok token =>
      match token.claimLookup "email" with
      | none => ⟨.error .missingEmail, 0, []⟩
      | some .nonString => ⟨.error .emailNotString, 0, []⟩
      | some (.str email) =>
        match env.findUser email with
        | .error _ => ⟨.error .userNotFound, 0, []⟩
        | .ok none => ⟨.error .userNotFound, 0, []⟩
        | .ok (some user) =>
          if user.disabled then ⟨.error .userDisabled, 0, []⟩
          else if user.lastRevokeCheck + env.ttl < env.now then
            match env.checkRevoked cookieValue with
            | .error e => ⟨.error (.revokeCheckFailed e), 1, []⟩
            | .ok _ =>
              let user' : User := { user with lastRevokeCheck := env.now }
              match env.saveUser user' with
              | .error e => ⟨.error (.saveUserFailed e), 1, [user']⟩
              | .ok _ => ⟨.ok user', 1, [user']⟩
          else ⟨.ok user, 0, []⟩

/-- The observable result of a middleware handler: an unauthorized JSON
response (`WriteJSON(401, nil)`), a flash-message redirect, or forwarding
the (possibly context-enriched) request to the next handler. -/
inductive MWResult where
  | jsonUnauthorized
  | redirect (location : String) (flash : String) (status : Nat)
  | forward (r : MWRequest)
deriving DecidableEq, Repr

/-- Whether the downstream handler was invoked. -/
def MWResult.isForward : MWResult → Bool
  | .forward _ => true
  | _ => false

/-- `RequireAuthHandler.Handle`: run the resolver; on error respond
unauthorized (JSON or redirect-to-signout), on success forward with the
user bound to the request context. -/
def requireAuthHandle (env : AuthEnv) (r : MWRequest) : MWResult :=
  match (requireAuthResolve env r.cookie).result with
  | .error _ =>
    if r.isJSON then .jsonUnauthorized
    else .redirect "/signout" "Unauthorized" 302
  | .ok user => .forward { r with ctxUser := some user }

/-- `RequireRealmAdminHandler.Handle`, part_000 lines 50–85. -/
def requireRealmAdminHandle (r : MWRequest) : MWResult :=
  match r.ctxUser with
  | none => .redirect "/signout" "Unauthorized" 302
  | some user =>
    match r.ctxRealm with
    | none => .redirect "/signout" "Unauthorized" 302
    | some realm =>
      if user.canAdminRealm realm.id then .forward r
      else .redirect "/realm" "You are not authorized to admin that realm." 302

/-! ## Code-issuance handler (`pkg/controller/issueapi/issue.go`) -/

/-- `api.IssueCodeRequest`: the bound JSON body. -/
structure IssueCodeRequest where
  testType : String
  symptomDate : String
  phone : String
deriving DecidableEq, Repr

/-- `config.IssueAPIConfig` getters used by the handler.  Durations are in
seconds. -/
structure IssueAPIConfig where
  allowedSymptomAge : Nat
  codeDuration : Nat
  codeDigits : Nat
  collisionRetryCount : Nat
deriving DecidableEq, Repr

/-- An SMS provider handle (`sms.Provider`); opaque to the handler. -/
structure SMSProvider where
  id : Nat
deriving DecidableEq, Repr

/-- The SMS message built from `smsTemplate`: it embeds the code and the
expiry duration in minutes (`int(expiration.Minutes())`). -/
structure SMSMessage where
  code : String
  expiresMinutes : Nat
deriving DecidableEq, Repr

/-- The JSON body of each `controller.WriteJSON` call in `ServeHTTP`, one
constructor per call site.  All constructors except `issueCodeResponse`
are `api.Error(...)` bodies, i.e. `{error: string}` objects. -/
inductive Body where
  | errInvalidRequest (e : String)
  | errUnauthorizedText
  | errNoRealmSelected
  | errFailedGetSMSProvider
  | errNoSMSProvider
  | errInvalidTestType (t : String)
  | errInvalidSymptomDate (e : String)
  | errSymptomDateOutOfRange (parsed minDate maxDate : Nat)
  | errGenerating
  | errSendSMS (e : String)
  | issueCodeResponse (code : String) (expiresAtTimestamp : Nat)
deriving DecidableEq, Repr

/-- Whether the body is an `api.Error` `{error: string}` object. -/
def Body.isErrorObject : Body → Bool
  | .issueCodeResponse _ _ => false
  | _ => true

/-- One `controller.WriteJSON(w, status, body)` call. -/
structure Response where
  status : Nat
  body : Body
deriving DecidableEq, Repr

/-- Store/channel side effects of the handler, in program order.
`insertedCode` is the record persisted by a successful `Issue`;
`deletedCode` a successful `DeleteVerificationCode`. -/
inductive Effect where
  | insertedCode (code : String)
  | deletedCode (code : String)
  | smsSent (phone : String) (message : SMSMessage)
deriving DecidableEq, Repr

/-- Replay the store effects over a store modelled as the list of live
code values. -/
def applyEffects (store : List String) : List Effect → List String
  | [] => store
  | .insertedCode c :: rest => applyEffects (c :: store) rest
  | .deletedCode c :: rest => applyEffects (store.erase c) rest
  | .smsSent _ _ :: rest => applyEffects store rest

/-- External collaborators and request-scoped inputs of `ServeHTTP`.
`issueResult` is the outcome of the external `otp.Request.Issue` call
(the successful code value, or an error). -/
structure IssueEnv where
  bindResult : Except String IssueCodeRequest
  ctxAuthApp : Option AuthorizedApp
  ctxUser : Option User
  ctxRealm : Option Realm
  getRealm : AuthorizedApp → Except Unit Realm
  getSMSProvider : Realm → Except Unit (Option SMSProvider)
  parseDate : String → Except String Nat
  now : Nat
  issueResult : Except Unit String
  sendSMS : SMSProvider → String → SMSMessage → Except String Unit
  deleteCode : String → Except Unit Unit

/-- `IssueAPI.getAuthorizationFromContext`: the authorized app wins; then
the user; else an error. -/
def getAuthorizationFromContext (app : Option AuthorizedApp) (user : Option User) :
    Except String (Option AuthorizedApp × Option User) :=
  match app with
  | some a => .ok (some a, none)
  | none =>
    match user with
    | some u => .ok (none, some u)
    | none => .error "unable to identify authorized requestor"

/-- The valid test types, lower-case (`api.TestTypeConfirmed` etc., the
values rendered by the issue form). -/
def validTestTypes : List String := ["confirmed", "likely", "negative"]

/-- `strings.ToLower`, modelled character-wise (the test-type values are
plain ASCII). -/
def toLowerStr (s : String) : String := ⟨s.data.map Char.toLower⟩

/-- `Truncate(24 * time.Hour)` on a post-epoch instant: round down to a
day boundary. -/
def truncDay (t : Nat) : Nat := t / 86400 * 86400

/-- The realm-resolution block of `ServeHTTP` (issue.go lines 77–91):
an authorized app resolves its own realm (failure ⇒ 401), a user takes the
realm from the request context (absence ⇒ 422). -/
def resolveRealm (env : IssueEnv) : Option AuthorizedApp → Except Response Realm
  | some app =>
    match env.getRealm app with
    | .error _ => .error ⟨401, .errUnauthorizedText⟩
    | .ok realm => .ok realm
  | none =>
    match env.ctxRealm with
    | some realm => .ok realm
    | none => .error ⟨422, .errNoRealmSelected⟩

/-- The symptom-date block (issue.go lines 121–138): parse failure or a
date outside `[minDate, maxDate]` is a 422 with the bounds echoed. -/
def checkSymptomDate (env : IssueEnv) (req : IssueCodeRequest) (minDate maxDate : Nat) :
    Except Response (Option Nat) :=
  if req.symptomDate ≠ "" then
    match env.parseDate req.symptomDate with
    | .error e => .error ⟨422, .errInvalidSymptomDate e⟩
    | .ok parsed =>
      if parsed < minDate ∨ maxDate < parsed then
        .error ⟨422, .errSymptomDateOutOfRange parsed minDate maxDate⟩
      else .ok (some parsed)
  else .ok none

/-- Tail of `ServeHTTP` from the `Issue` call on (issue.go lines 140–183):
generate-and-persist via the external `Issue` (failure ⇒ 500 try-again),
then optional SMS dispatch with compensating delete on dispatch failure
(delete failure is logged and falls through to the same 500). -/
def issueAndDispatch (cfg : IssueAPIConfig) (env : IssueEnv) (req : IssueCodeRequest)
    (smsProvider : Option SMSProvider) : List Response × List Effect :=
  let expiryTime := env.now + cfg.codeDuration
  match env.issueResult with
  | .error _ => ([⟨500, .errGenerating⟩], [])
  | .ok code =>
    match smsProvider with
    | some provider =>
      if req.phone ≠ "" then
        let message : SMSMessage := ⟨code, cfg.codeDuration / 60⟩
        match env.sendSMS provider req.phone message with
        | .error e =>
          match env.deleteCode code with
          | .ok _ => ([⟨500, .errSendSMS e⟩], [.insertedCode code, .deletedCode code])
          | .error _ => ([⟨500, .errSendSMS e⟩], [.insertedCode code])
        | .ok _ =>
          ([⟨200, .issueCodeResponse code expiryTime⟩],
            [.insertedCode code, .smsSent req.phone message])
      else ([⟨200, .issueCodeResponse code expiryTime⟩], [.insertedCode code])
    | none => ([⟨200, .issueCodeResponse code expiryTime⟩], [.insertedCode code])

/-- `ServeHTTP` from the test-type check on (issue.go lines 109–183).
The request's test type has already been lower-cased in place. -/
def afterSMSCheck (cfg : IssueAPIConfig) (env : IssueEnv) (req : IssueCodeRequest)
    (smsProvider : Option SMSProvider) : List Response × List Effect :=
  if validTestTypes.contains req.testType then
    let maxDate := env.now
    let minDate := truncDay (env.now - cfg.allowedSymptomAge)
    match checkSymptomDate env req minDate maxDate with
    | .error resp => ([resp], [])
    | .ok _ => issueAndDispatch cfg env req smsProvider
  else ([⟨422, .errInvalidTestType req.testType⟩], [])

/-- The SMS-configuration block (issue.go lines 93–107).  NOTE: the
`smsProvider == nil` branch writes a 422 response but has no `return`
statement, so execution falls through to the rest of the handler; this is
modelled by prepending the 422 to whatever the continuation produces. -/
def afterRealm (cfg : IssueAPIConfig) (env : IssueEnv) (req : IssueCodeRequest)
    (realm : Realm) : List Response × List Effect :=
  if req.phone ≠ "" then
    match env.getSMSProvider realm with
    | .error _ => ([⟨500, .errFailedGetSMSProvider⟩], [])
    | .ok none =>
      let rest := afterSMSCheck cfg env req none
      (⟨422, .errNoSMSProvider⟩ :: rest.1, rest.2)
    | .ok (some provider) => afterSMSCheck cfg env req (some provider)
  else afterSMSCheck cfg env req none

/-- `IssueAPI.ServeHTTP`, issue.go lines 61–184: the ordered list of
`WriteJSON` calls and the store/channel effects. -/
def serveHTTP (cfg : IssueAPIConfig) (env : IssueEnv) : List Response × List Effect :=
  match env.bindResult with
  | .error e => ([⟨200, .errInvalidRequest e⟩], [])
  | .ok req =>
    match getAuthorizationFromContext env.ctxAuthApp env.ctxUser with
    | .error e => ([⟨422, .errInvalidRequest e⟩], [])
    | .ok (authApp, _user) =>
      match resolveRealm env authApp with
      | .error resp => ([resp], [])
      | .ok realm => afterRealm cfg env { req with testType := toLowerStr req.testType } realm

/-! ## The generate-and-persist retry loop (`otp.Request.Issue`)

Modelled from the spec: the `otp` package itself is not among the sources;
only its caller in `issue.go` is.  Per spec §4.3, the engine repeatedly
generates a candidate code and attempts an atomic insert; a uniqueness
conflict triggers a retry, bounded by the configured retry budget;
exhausting the budget is an error. -/

/-- Modelled from the spec: the outcome of one atomic
`insertCodeIfAbsent` attempt. -/
inductive PersistResult where
  | ok
  | conflict
  | storeError
deriving DecidableEq, Repr

/-- Modelled from the spec: the bounded generate-and-persist loop.
`gen i` is the candidate generated on attempt `i` (attempts are numbered
from 0), `persist i` the store's answer for it, and `fuel` the remaining
retry budget.  On success it returns the code together with the total
number of generation attempts made. -/
def otpIssueLoop (gen : Nat → String) (persist : Nat → PersistResult) :
    Nat → Nat → Except Unit (String × Nat)
  | i, 0 =>
    match persist i with
    | .ok => .ok (gen i, i + 1)
    | .storeError => .error ()
    | .conflict => .error ()
  | i, fuel + 1 =>
    match persist i with
    | .ok => .ok (gen i, i + 1)
    | .storeError => .error ()
    | .conflict => otpIssueLoop gen persist (i + 1) fuel

/-- Modelled from the spec: `otp.Request.Issue(ctx, retryCount)` with the
configured collision-retry budget. -/
def otpIssue (gen : Nat → String) (persist : Nat → PersistResult) (budget : Nat) :
    Except Unit (String × Nat) :=
  otpIssueLoop gen persist 0 budget

/-! ## Concrete example inputs for the issue endpoint -/

/-- Example configuration: symptom age 100000 s, one-hour code duration,
8 digits, collision-retry budget 3. -/
def exCfg : IssueAPIConfig := ⟨100000, 3600, 8, 3⟩

/-- Issuance environment in which a phone is supplied but the realm has no
SMS provider configured, and every later collaborator succeeds. -/
def c1Env : IssueEnv where
  bindResult := .ok ⟨"confirmed", "", "+15551234"⟩
  ctxAuthApp := none
  ctxUser := some ⟨"a@b", false, false, [], 0⟩
  ctxRealm := some ⟨1⟩
  getRealm := fun _ => .error ()
  getSMSProvider := fun _ => .ok none
  parseDate := fun _ => .error "parse"
  now := 200000
  issueResult := .ok "12345678"
  sendSMS := fun _ _ _ => .ok ()
  deleteCode := fun _ => .ok ()

/-- Issuance environment in which persistence succeeds, the SMS provider
is configured, and dispatch fails; the compensating delete succeeds. -/
def c2Env : IssueEnv where
  bindResult := .ok ⟨"confirmed", "", "+15551234"⟩
  ctxAuthApp := none
  ctxUser := some ⟨"a@b", false, false, [], 0⟩
  ctxRealm := some ⟨1⟩
  getRealm := fun _ => .error ()
  getSMSProvider := fun _ => .ok (some ⟨1⟩)
  parseDate := fun _ => .error "parse"
  now := 200000
  issueResult := .ok "12345678"
  sendSMS := fun _ _ _ => .error "boom"
  deleteCode := fun _ => .ok ()

/-- Issuance environment in which neither an authorized app nor a user is
present in the request context. -/
def c5Env : IssueEnv where
  bindResult := .ok ⟨"confirmed", "", ""⟩
  ctxAuthApp := none
  ctxUser := none
  ctxRealm := some ⟨1⟩
  getRealm := fun _ => .error ()
  getSMSProvider := fun _ => .ok none
  parseDate := fun _ => .error "parse"
  now := 200000
  issueResult := .ok "12345678"
  sendSMS := fun _ _ _ => .ok ()
  deleteCode := fun _ => .ok ()

/-- Issuance environment in which the generate-and-persist call exhausts
its retry budget. -/
def c6Env : IssueEnv where
  bindResult := .ok ⟨"confirmed", "", ""⟩
  ctxAuthApp := none
  ctxUser := some ⟨"a@b", false, false, [], 0⟩
  ctxRealm := some ⟨1⟩
  getRealm := fun _ => .error ()
  getSMSProvider := fun _ => .ok none
  parseDate := fun _ => .error "parse"
  now := 200000
  issueResult := .error ()
  sendSMS := fun _ _ _ => .ok ()
  deleteCode := fun _ => .ok ()

/-- Store oracle conflicting on the first two attempts and accepting the
third. -/
def c6Persist : Nat → PersistResult := fun j => if j < 2 then .conflict else .ok

/-- Issuance environment supplying a symptom date that parses to exactly
`minDate = truncDay (200000 - 100000) = 86400`. -/
def c7Env : IssueEnv where
  bindResult := .ok ⟨"confirmed", "2020-01-02", ""⟩
  ctxAuthApp := none
  ctxUser := some ⟨"a@b", false, false, [], 0⟩
  ctxRealm := some ⟨1⟩
  getRealm := fun _ => .error ()
  getSMSProvider := fun _ => .ok none
  parseDate := fun _ => .ok 86400
  now := 200000
  issueResult := .ok "12345678"
  sendSMS := fun _ _ _ => .ok ()
  deleteCode := fun _ => .ok ()

/-- Issuance environment whose JSON body fails to bind. -/
def c9Env : IssueEnv where
  bindResult := .error "EOF"
  ctxAuthApp := none
  ctxUser := none
  ctxRealm := none
  getRealm := fun _ => .error ()
  getSMSProvider := fun _ => .ok none
  parseDate := fun _ => .error "parse"
  now := 200000
  issueResult := .ok "12345678"
  sendSMS := fun _ _ _ => .ok ()
  deleteCode := fun _ => .ok ()

/-- Concrete collaborators for exercising `c3_revoke_check_ttl`: an
expired-TTL user whose revocation check and persist both succeed. -/
def c3Env : AuthEnv :=
  ⟨fun _ => .ok ⟨[("email", .str "a@b")]⟩,
   fun _ => .ok (some ⟨"a@b", false, false, [], 0⟩),
   100, fun _ => .ok (), fun _ => .ok (), 10⟩

/-- Concrete collaborators for exercising `c4_disabled_user_never_principal`:
a disabled user behind an otherwise valid session cookie. -/
def c4Env : AuthEnv :=
  ⟨fun _ => .ok ⟨[("email", .str "d@b")]⟩,
   fun _ => .ok (some ⟨"d@b", true, false, [], 0⟩),
   100, fun _ => .ok (), fun _ => .ok (), 10⟩

/-- Concrete collaborators for exercising `c10_store_error_indistinguishable`:
the store fails during the lookup. -/
def c10Env : AuthEnv :=
  ⟨fun _ => .ok ⟨[("email", .str "a@b")]⟩,
   fun _ => .error (), 100, fun _ => .ok (), fun _ => .ok (), 10⟩

/-! ## Reduction lemma for the authentication resolver -/

/-- Once the cookie verifies, the email claim resolves and an enabled user
is found, `requireAuthResolve` reduces to the revocation-check block. -/
theorem requireAuthResolve_enabled (env : AuthEnv) (cv : String) (token : Token)
    (email : String) (u : User)
    (hverify : env.verifyCookie cv = .ok token)
    (hclaim : token.claimLookup "email" = some (.str email))
    (hfind : env.findUser email = .ok (some u))
    (hdisabled : u.disabled = false) :
    requireAuthResolve env (.ok cv) =
      (if u.lastRevokeCheck + env.ttl < env.now then
        match env.checkRevoked cv with
        | .error e => ⟨.error (.revokeCheckFailed e), 1, []⟩
        | .ok _ =>
          match env.saveUser { u with lastRevokeCheck := env.now } with
          | .error e =>
            ⟨.error (.saveUserFailed e), 1, [{ u with lastRevokeCheck := env.now }]⟩
          | .ok _ =>
            ⟨.ok { u with lastRevokeCheck := env.now }, 1,
              [{ u with lastRevokeCheck := env.now }]⟩
      else ⟨.ok u, 0, []⟩) := by
  simp only [requireAuthResolve, hverify, hclaim, hfind, hdisabled, Bool.false_eq_true,
    if_false]

/-! ## Claim theorems -/

/-- **C3.** For every authenticated request: no revocation check occurs
while `now - lastRevokeCheck < ttl`; once the TTL has elapsed exactly one
revocation check occurs, `lastRevokeCheck` is advanced (monotonically, to
`now`) and persisted only when that check succeeds, and a failure of
either the revocation check or the subsequent persist aborts the request
as an authentication failure (fail closed, the downstream handler is not
invoked). -/
theorem c3_revoke_check_ttl (env : AuthEnv) (r : MWRequest)
    (cv : String) (token : Token) (email : String) (u : User)
    (hcookie : r.cookie = .ok cv)
    (hverify : env.verifyCookie cv = .ok token)
    (hclaim : token.claimLookup "email" = some (.str email))
    (hfind : env.findUser email = .ok (some u))
    (hdisabled : u.disabled = false) :
    (env.now - u.lastRevokeCheck < env.ttl →
      (requireAuthResolve env r.cookie).revokeChecks = 0
      ∧ (requireAuthResolve env r.cookie).result = .ok u
      ∧ (requireAuthResolve env r.cookie).saveCalls = [])
    ∧ (u.lastRevokeCheck + env.ttl < env.now →
      (requireAuthResolve env r.cookie).revokeChecks = 1
      ∧ (∀ e, env.checkRevoked cv = .error e →
          (requireAuthResolve env r.cookie).result = .error (.revokeCheckFailed e)
          ∧ (requireAuthHandle env r).isForward = false)
      ∧ (env.checkRevoked cv = .ok () →
          (∀ e, env.saveUser { u with lastRevokeCheck := env.now } = .error e →
            (requireAuthResolve env r.cookie).result = .error (.saveUserFailed e)
            ∧ (requireAuthHandle env r).isForward = false)
          ∧ (env.saveUser { u with lastRevokeCheck := env.now } = .ok () →
            (requireAuthResolve env r.cookie).result =
              .ok { u with lastRevokeCheck := env.now }
            ∧ u.lastRevokeCheck < env.now
            ∧ (requireAuthResolve env r.cookie).saveCalls =
                [{ u with lastRevokeCheck := env.now }]))) := by
  rw [hcookie]
  rw [requireAuthResolve_enabled env cv token email u hverify hclaim hfind hdisabled]
  constructor
  · intro hlt
    rw [if_neg (by omega)]
    exact ⟨rfl, rfl, rfl⟩
  · intro hgt
    rw [if_pos hgt]
    refine ⟨?_, ?_, ?_⟩
    · cases hrc : env.checkRevoked cv with
      | error e => rfl
      | ok v =>
        cases hsv : env.saveUser { u with lastRevokeCheck := env.now } with
        | error e => rfl
        | ok w => rfl
    · intro e hrc
      rw [hrc]
      refine ⟨rfl, ?_⟩
      simp only [requireAuthHandle, hcookie,
        requireAuthResolve_enabled env cv token email u hverify hclaim hfind hdisabled,
        if_pos hgt, hrc]
      cases r.isJSON <;> rfl
    · intro hrc
      constructor
      · intro e hsv
        rw [hrc, hsv]
        refine ⟨rfl, ?_⟩
        simp only [requireAuthHandle, hcookie,
          requireAuthResolve_enabled env cv token email u hverify hclaim hfind hdisabled,
          if_pos hgt, hrc, hsv]
        cases r.isJSON <;> rfl
      · intro hsv
        rw [hrc, hsv]
        exact ⟨rfl, by omega, rfl⟩

theorem c3_revoke_check_ttl_witness :
    (requireAuthResolve c3Env (.ok "c")).revokeChecks = 1
    ∧ (requireAuthResolve c3Env (.ok "c")).result = .ok ⟨"a@b", false, false, [], 100⟩ := by
  have h := c3_revoke_check_ttl c3Env ⟨.ok "c", true, none, none⟩ "c"
    ⟨[("email", .str "a@b")]⟩ "a@b" ⟨"a@b", false, false, [], 0⟩
    rfl rfl (by decide) rfl rfl
  have h2 := h.2 (by decide)
  exact ⟨h2.1, ((h2.2.2 rfl).2 rfl).1⟩

/-- **C4.** A user whose `Disabled` flag is set makes `RequireAuth` fail
with `UserDisabled` even when the session cookie is otherwise valid; the
disabled user is never attached to the request context and the downstream
handler is never invoked. -/
theorem c4_disabled_user_never_principal (env : AuthEnv) (r : MWRequest)
    (cv : String) (token : Token) (email : String) (u : User)
    (hcookie : r.cookie = .ok cv)
    (hverify : env.verifyCookie cv = .ok token)
    (hclaim : token.claimLookup "email" = some (.str email))
    (hfind : env.findUser email = .ok (some u))
    (hdisabled : u.disabled = true) :
    (requireAuthResolve env r.cookie).result = .error .userDisabled
    ∧ requireAuthHandle env r =
        (if r.isJSON then .jsonUnauthorized else .redirect "/signout" "Unauthorized" 302)
    ∧ (requireAuthHandle env r).isForward = false := by
  have hres : requireAuthResolve env r.cookie = ⟨.error .userDisabled, 0, []⟩ := by
    rw [hcookie]
    simp only [requireAuthResolve, hverify, hclaim, hfind, hdisabled, if_true]
  refine ⟨by rw [hres], ?_, ?_⟩
  · simp only [requireAuthHandle, hres]
  · simp only [requireAuthHandle, hres]
    cases r.isJSON <;> rfl

theorem c4_disabled_user_never_principal_witness :
    (requireAuthResolve c4Env (.ok "c")).result = .error .userDisabled
    ∧ (requireAuthHandle c4Env ⟨.ok "c", false, none, none⟩).isForward = false := by
  have h := c4_disabled_user_never_principal c4Env ⟨.ok "c", false, none, none⟩ "c"
    ⟨[("email", .str "d@b")]⟩ "d@b" ⟨"d@b", true, false, [], 0⟩
    rfl rfl (by decide) rfl rfl
  exact ⟨h.1, h.2.2⟩

/-- **C8.** `RequireRealmAdmin` fails closed with the generic redirect to
sign-out when the user or realm is absent from the request context; when
both are present but `CanAdminRealm(realm.ID)` is false it redirects to
the realm-selection page with the distinguishable message; when the check
passes it forwards the request unchanged. -/
theorem c8_requireRealmAdmin_spec (r : MWRequest) :
    (r.ctxUser = none →
      requireRealmAdminHandle r = .redirect "/signout" "Unauthorized" 302)
    ∧ (r.ctxRealm = none →
      requireRealmAdminHandle r = .redirect "/signout" "Unauthorized" 302)
    ∧ (∀ u realm, r.ctxUser = some u → r.ctxRealm = some realm →
        u.canAdminRealm realm.id = false →
        requireRealmAdminHandle r =
          .redirect "/realm" "You are not authorized to admin that realm." 302)
    ∧ (∀ u realm, r.ctxUser = some u → r.ctxRealm = some realm →
        u.canAdminRealm realm.id = true →
        requireRealmAdminHandle r = .forward r) := by
  refine ⟨?_, ?_, ?_, ?_⟩
  · intro h
    simp only [requireRealmAdminHandle, h]
  · intro h
    cases hu : r.ctxUser with
    | none => simp only [requireRealmAdminHandle, hu]
    | some u => simp only [requireRealmAdminHandle, hu, h]
  · intro u realm hu hr hca
    simp only [requireRealmAdminHandle, hu, hr, hca, Bool.false_eq_true, if_false]
  · intro u realm hu hr hca
    simp only [requireRealmAdminHandle, hu, hr, hca, if_true]

theorem c8_requireRealmAdmin_spec_witness :
    requireRealmAdminHandle ⟨.ok "c", false, some ⟨"a@b", false, false, [7], 0⟩, some ⟨7⟩⟩ =
      .forward ⟨.ok "c", false, some ⟨"a@b", false, false, [7], 0⟩, some ⟨7⟩⟩ :=
  (c8_requireRealmAdmin_spec _).2.2.2 ⟨"a@b", false, false, [7], 0⟩ ⟨7⟩ rfl rfl (by decide)

/-- **C10.** In `RequireAuth`, a Credential Store error during the user
lookup by email is treated identically to the user not existing: both map
to `ErrUserNotFound` and produce the same generic unauthorized response,
so the caller cannot distinguish a store failure from an absent user. -/
theorem c10_store_error_indistinguishable (env : AuthEnv) (r : MWRequest)
    (cv : String) (token : Token) (email : String)
    (hcookie : r.cookie = .ok cv)
    (hverify : env.verifyCookie cv = .ok token)
    (hclaim : token.claimLookup "email" = some (.str email))
    (hfind : env.findUser email = .error () ∨ env.findUser email = .ok none) :
    requireAuthResolve env r.cookie = ⟨.error .userNotFound, 0, []⟩
    ∧ requireAuthHandle env r =
        (if r.isJSON then .jsonUnauthorized else .redirect "/signout" "Unauthorized" 302) := by
  have hres : requireAuthResolve env r.cookie = ⟨.error .userNotFound, 0, []⟩ := by
    rw [hcookie]
    rcases hfind with h | h <;>
      simp only [requireAuthResolve, hverify, hclaim, h]
  exact ⟨hres, by simp only [requireAuthHandle, hres]⟩

theorem c10_store_error_indistinguishable_witness :
    requireAuthResolve c10Env (.ok "c") = ⟨.error .userNotFound, 0, []⟩
    ∧ requireAuthHandle c10Env ⟨.ok "c", true, none, none⟩ = .jsonUnauthorized := by
  have h := c10_store_error_indistinguishable c10Env ⟨.ok "c", true, none, none⟩ "c"
    ⟨[("email", .str "a@b")]⟩ "a@b" rfl rfl (by decide) (.inl rfl)
  exact ⟨h.1, h.2⟩

/-! ## Reduction lemmas for the issue endpoint -/

/-- With a bound request, no authorized app and a user plus realm in
context, `serveHTTP` reduces to the post-authorization stages on the
lower-cased request. -/
theorem serveHTTP_user_realm (cfg : IssueAPIConfig) (env : IssueEnv)
    (req : IssueCodeRequest) (u : User) (realm : Realm)
    (hbind : env.bindResult = .ok req)
    (happ : env.ctxAuthApp = none)
    (huser : env.ctxUser = some u)
    (hrealm : env.ctxRealm = some realm) :
    serveHTTP cfg env =
      afterRealm cfg env { req with testType := toLowerStr req.testType } realm := by
  simp only [serveHTTP, hbind, getAuthorizationFromContext, happ, huser, resolveRealm,
    hrealm]

/-- With no phone on the request, the SMS-configuration block is skipped. -/
theorem afterRealm_no_phone (cfg : IssueAPIConfig) (env : IssueEnv)
    (req : IssueCodeRequest) (realm : Realm) (hphone : req.phone = "") :
    afterRealm cfg env req realm = afterSMSCheck cfg env req none := by
  simp only [afterRealm, hphone, ne_eq, not_true_eq_false, if_false]

/-- With a phone and a configured provider, the handler proceeds with that
provider. -/
theorem afterRealm_with_provider (cfg : IssueAPIConfig) (env : IssueEnv)
    (req : IssueCodeRequest) (realm : Realm) (p : SMSProvider)
    (hphone : req.phone ≠ "")
    (hsms : env.getSMSProvider realm = .ok (some p)) :
    afterRealm cfg env req realm = afterSMSCheck cfg env req (some p) := by
  simp only [afterRealm, if_pos hphone, hsms]

/-- With a valid test type and no symptom date supplied, the handler
reduces to the issue-and-dispatch tail. -/
theorem afterSMSCheck_valid_blank (cfg : IssueAPIConfig) (env : IssueEnv)
    (req : IssueCodeRequest) (sp : Option SMSProvider)
    (htt : validTestTypes.contains req.testType = true)
    (hsd : req.symptomDate = "") :
    afterSMSCheck cfg env req sp = issueAndDispatch cfg env req sp := by
  simp only [afterSMSCheck, htt, if_true, checkSymptomDate, hsd, ne_eq,
    not_true_eq_false, if_false]

/-! ## Lemmas about the spec-modelled retry loop -/

/-- An accepted insert ends the loop at once with the current candidate. -/
theorem otpIssueLoop_ok (gen : Nat → String) (persist : Nat → PersistResult)
    (i fuel : Nat) (h : persist i = .ok) :
    otpIssueLoop gen persist i fuel = .ok (gen i, i + 1) := by
  cases fuel <;> simp only [otpIssueLoop, h]

/-- A conflict with no remaining budget ends the loop in an error. -/
theorem otpIssueLoop_conflict_zero (gen : Nat → String) (persist : Nat → PersistResult)
    (i : Nat) (h : persist i = .conflict) :
    otpIssueLoop gen persist i 0 = .error () := by
  simp only [otpIssueLoop, h]

/-- A conflict with remaining budget retries on the next candidate. -/
theorem otpIssueLoop_conflict_succ (gen : Nat → String) (persist : Nat → PersistResult)
    (i fuel : Nat) (h : persist i = .conflict) :
    otpIssueLoop gen persist i (fuel + 1) = otpIssueLoop gen persist (i + 1) fuel := by
  simp only [otpIssueLoop, h]

/-- A conflict on each of the first `n` attempts followed by an accepted
insert, all within the remaining budget, yields the `n`-th candidate after
exactly `n + 1` generation attempts. -/
theorem otpIssueLoop_conflicts (gen : Nat → String) (persist : Nat → PersistResult) :
    ∀ (n i fuel : Nat), (∀ j, j < n → persist (i + j) = .conflict) →
      persist (i + n) = .ok → n ≤ fuel →
      otpIssueLoop gen persist i fuel = .ok (gen (i + n), i + n + 1) := by
  intro n
  induction n with
  | zero =>
    intro i fuel _ hok _
    rw [show i + 0 = i from rfl] at hok
    exact otpIssueLoop_ok gen persist i fuel hok
  | succ n ih =>
    intro i fuel hconf hok hle
    have hfirst : persist i = .conflict := by
      have := hconf 0 (Nat.succ_pos n)
      rwa [Nat.add_zero] at this
    obtain ⟨fuel', rfl⟩ : ∃ fuel', fuel = fuel' + 1 := ⟨fuel - 1, by omega⟩
    rw [otpIssueLoop_conflict_succ gen persist i fuel' hfirst]
    have hconf' : ∀ j, j < n → persist (i + 1 + j) = .conflict := by
      intro j hj
      have := hconf (j + 1) (by omega)
      rwa [show i + (j + 1) = i + 1 + j by omega] at this
    have hok' : persist (i + 1 + n) = .ok := by
      rwa [show i + 1 + n = i + (n + 1) by omega]
    have := ih (i + 1) fuel' hconf' hok' (by omega)
    rwa [show i + 1 + n = i + (n + 1) by omega] at this

/-- On success the number of generation attempts never exceeds the initial
attempt index plus the remaining budget plus one: the loop is bounded. -/
theorem otpIssueLoop_bounded (gen : Nat → String) (persist : Nat → PersistResult) :
    ∀ (fuel i : Nat) (c : String) (n : Nat),
      otpIssueLoop gen persist i fuel = .ok (c, n) → n ≤ i + fuel + 1 := by
  intro fuel
  induction fuel with
  | zero =>
    intro i c n h
    cases hp : persist i with
    | ok =>
      rw [otpIssueLoop_ok gen persist i 0 hp] at h
      cases h
      omega
    | conflict => rw [otpIssueLoop_conflict_zero gen persist i hp] at h; cases h
    | storeError => simp only [otpIssueLoop, hp] at h; cases h
  | succ fuel ih =>
    intro i c n h
    cases hp : persist i with
    | ok =>
      rw [otpIssueLoop_ok gen persist i (fuel + 1) hp] at h
      cases h
      omega
    | conflict =>
      rw [otpIssueLoop_conflict_succ gen persist i fuel hp] at h
      have := ih (i + 1) c n h
      omega
    | storeError => simp only [otpIssueLoop, hp] at h; cases h

/-- Conflicts on every attempt within the budget exhaust the loop into an
error. -/
theorem otpIssueLoop_exhausted (gen : Nat → String) (persist : Nat → PersistResult) :
    ∀ (fuel i : Nat), (∀ j, j ≤ fuel → persist (i + j) = .conflict) →
      otpIssueLoop gen persist i fuel = .error () := by
  intro fuel
  induction fuel with
  | zero =>
    intro i hconf
    have h0 : persist i = .conflict := by
      have := hconf 0 (Nat.le_refl 0)
      rwa [Nat.add_zero] at this
    exact otpIssueLoop_conflict_zero gen persist i h0
  | succ fuel ih =>
    intro i hconf
    have hfirst : persist i = .conflict := by
      have := hconf 0 (Nat.zero_le _)
      rwa [Nat.add_zero] at this
    rw [otpIssueLoop_conflict_succ gen persist i fuel hfirst]
    have hshift : ∀ j, j ≤ fuel → persist (i + 1 + j) = .conflict := by
      intro j hj
      have := hconf (j + 1) (by omega)
      rwa [show i + (j + 1) = i + 1 + j by omega] at this
    exact ih (i + 1) hshift

/-! ## Issue-endpoint claim theorems -/

/-- **C1** (code behaviour at the failing input).  With a phone supplied
and the realm lacking an SMS provider, the handler writes the 422
no-channel error but does not stop there: it continues, persists a
verification-code record, and writes a second, 200 response carrying the
code — the `smsProvider == nil` branch is missing a `return`. -/
theorem c1_no_channel_handler_continues :
    serveHTTP exCfg c1Env =
      ([⟨422, .errNoSMSProvider⟩, ⟨200, .issueCodeResponse "12345678" 203600⟩],
        [.insertedCode "12345678"]) := by
  rfl

/-- **C2.** When a recipient was supplied, a channel is configured,
persistence succeeded and dispatch then fails: the handler responds
`InternalError` (500), the just-created code record is deleted from the
store (so it is absent afterwards), and a failure of the compensating
delete itself does not change the error returned to the caller. -/
theorem c2_dispatch_failure_rollback (cfg : IssueAPIConfig) (env : IssueEnv)
    (req : IssueCodeRequest) (u : User) (realm : Realm) (p : SMSProvider)
    (code e : String) (s₀ : List String)
    (hbind : env.bindResult = .ok req)
    (happ : env.ctxAuthApp = none)
    (huser : env.ctxUser = some u)
    (hrealm : env.ctxRealm = some realm)
    (hphone : req.phone ≠ "")
    (hsms : env.getSMSProvider realm = .ok (some p))
    (htt : validTestTypes.contains (toLowerStr req.testType) = true)
    (hsd : req.symptomDate = "")
    (hissue : env.issueResult = .ok code)
    (hsend : env.sendSMS p req.phone ⟨code, cfg.codeDuration / 60⟩ = .error e)
    (hdel : env.deleteCode code = .ok ())
    (hstore : code ∉ s₀) :
    (serveHTTP cfg env).1 = [⟨500, .errSendSMS e⟩]
    ∧ code ∉ applyEffects s₀ (serveHTTP cfg env).2
    ∧ (serveHTTP cfg { env with deleteCode := fun _ => .error () }).1 =
        [⟨500, .errSendSMS e⟩] := by
  have hred : serveHTTP cfg env =
      ([⟨500, .errSendSMS e⟩], [.insertedCode code, .deletedCode code]) := by
    rw [serveHTTP_user_realm cfg env req u realm hbind happ huser hrealm,
      afterRealm_with_provider cfg env { req with testType := toLowerStr req.testType }
        realm p hphone hsms,
      afterSMSCheck_valid_blank cfg env { req with testType := toLowerStr req.testType }
        (some p) htt hsd]
    simp only [issueAndDispatch, hissue]
    rw [if_pos hphone]
    simp only [hsend, hdel]
  have hred' : serveHTTP cfg { env with deleteCode := fun _ => .error () } =
      ([⟨500, .errSendSMS e⟩], [.insertedCode code]) := by
    rw [serveHTTP_user_realm cfg { env with deleteCode := fun _ => .error () }
        req u realm hbind happ huser hrealm,
      afterRealm_with_provider cfg { env with deleteCode := fun _ => .error () }
        { req with testType := toLowerStr req.testType } realm p hphone hsms,
      afterSMSCheck_valid_blank cfg { env with deleteCode := fun _ => .error () }
        { req with testType := toLowerStr req.testType } (some p) htt hsd]
    simp only [issueAndDispatch, hissue]
    rw [if_pos hphone]
    simp only [hsend]
  refine ⟨by rw [hred], ?_, by rw [hred']⟩
  rw [hred]
  simp only [applyEffects]
  rw [List.erase_cons_head]
  exact hstore

theorem c2_dispatch_failure_rollback_witness :
    (serveHTTP exCfg c2Env).1 = [⟨500, .errSendSMS "boom"⟩]
    ∧ "12345678" ∉ applyEffects [] (serveHTTP exCfg c2Env).2 := by
  have h := c2_dispatch_failure_rollback exCfg c2Env ⟨"confirmed", "", "+15551234"⟩
    ⟨"a@b", false, false, [], 0⟩ ⟨1⟩ ⟨1⟩ "12345678" "boom" []
    rfl rfl rfl rfl (by decide) rfl (by decide) rfl rfl rfl rfl (by decide)
  exact ⟨h.1, h.2.1⟩

/-- **C5** (counterexample).  With neither an authorized app nor a user
resolvable from the request context, the endpoint responds with HTTP 422,
not with the 401 the claim states. -/
theorem c5_counterexample_status_not_401 :
    (serveHTTP exCfg c5Env).1.map Response.status = [422]
    ∧ (serveHTTP exCfg c5Env).1.map Response.status ≠ [401] := by
  exact ⟨rfl, by decide⟩

/-- **C5** (amended).  For every issuance request in which neither an
AuthorizedApp nor a User can be resolved from the request context, the
issuance endpoint fails with HTTP 422 (UnprocessableEntity) and an
`{error: string}` body, persisting nothing. -/
theorem c5_no_principal_unprocessable (cfg : IssueAPIConfig) (env : IssueEnv)
    (req : IssueCodeRequest)
    (hbind : env.bindResult = .ok req)
    (happ : env.ctxAuthApp = none)
    (huser : env.ctxUser = none) :
    serveHTTP cfg env =
      ([⟨422, .errInvalidRequest "unable to identify authorized requestor"⟩], [])
    ∧ (Body.errInvalidRequest "unable to identify authorized requestor").isErrorObject
        = true := by
  refine ⟨?_, rfl⟩
  simp only [serveHTTP, hbind, getAuthorizationFromContext, happ, huser]

theorem c5_no_principal_unprocessable_witness :
    serveHTTP exCfg c5Env =
      ([⟨422, .errInvalidRequest "unable to identify authorized requestor"⟩], []) :=
  (c5_no_principal_unprocessable exCfg c5Env ⟨"confirmed", "", ""⟩ rfl rfl rfl).1

/-- **C6.** The generate-and-persist loop is bounded by the configured
retry budget: a conflict on each of the first `n` attempts (within
budget) yields success after exactly `n + 1` generation attempts; the
attempt count never exceeds budget + 1; conflicts throughout the budget
produce an error instead of further retries; and the endpoint maps the
exhausted-budget error to 500 with the try-again message. -/
theorem c6_retry_budget (gen : Nat → String) (persist : Nat → PersistResult)
    (budget n : Nat) (cfg : IssueAPIConfig) (env : IssueEnv)
    (req : IssueCodeRequest) (u : User) (realm : Realm)
    (hconf : ∀ j, j < n → persist j = .conflict)
    (hok : persist n = .ok)
    (hle : n ≤ budget)
    (hbind : env.bindResult = .ok req)
    (happ : env.ctxAuthApp = none)
    (huser : env.ctxUser = some u)
    (hrealm : env.ctxRealm = some realm)
    (hphone : req.phone = "")
    (htt : validTestTypes.contains (toLowerStr req.testType) = true)
    (hsd : req.symptomDate = "")
    (hissue : env.issueResult = .error ()) :
    otpIssue gen persist budget = .ok (gen n, n + 1)
    ∧ (∀ (g : Nat → String) (p : Nat → PersistResult) (b : Nat) (c : String) (m : Nat),
        otpIssue g p b = .ok (c, m) → m ≤ b + 1)
    ∧ (∀ p' : Nat → PersistResult, (∀ j, j ≤ budget → p' j = .conflict) →
        otpIssue gen p' budget = .error ())
    ∧ (serveHTTP cfg env).1 = [⟨500, .errGenerating⟩] := by
  refine ⟨?_, ?_, ?_, ?_⟩
  · have hconf0 : ∀ j, j < n → persist (0 + j) = .conflict := by
      intro j hj
      rw [Nat.zero_add]
      exact hconf j hj
    have hok0 : persist (0 + n) = .ok := by rwa [Nat.zero_add]
    have := otpIssueLoop_conflicts gen persist n 0 budget hconf0 hok0 hle
    rwa [Nat.zero_add] at this
  · intro g p b c m h
    have := otpIssueLoop_bounded g p b 0 c m h
    omega
  · intro p' hp'
    have hshift : ∀ j, j ≤ budget → p' (0 + j) = .conflict := by
      intro j hj
      rw [Nat.zero_add]
      exact hp' j hj
    exact otpIssueLoop_exhausted gen p' budget 0 hshift
  · rw [serveHTTP_user_realm cfg env req u realm hbind happ huser hrealm,
      afterRealm_no_phone cfg env { req with testType := toLowerStr req.testType }
        realm hphone,
      afterSMSCheck_valid_blank cfg env { req with testType := toLowerStr req.testType }
        none htt hsd]
    simp only [issueAndDispatch, hissue]

theorem c6_retry_budget_witness :
    otpIssue (fun _ => "00000000") c6Persist 3 = .ok ("00000000", 3)
    ∧ (serveHTTP exCfg c6Env).1 = [⟨500, .errGenerating⟩] := by
  have h := c6_retry_budget (fun _ => "00000000") c6Persist 3 2 exCfg c6Env
    ⟨"confirmed", "", ""⟩ ⟨"a@b", false, false, [], 0⟩ ⟨1⟩
    (by decide) (by decide) (by decide) rfl rfl rfl rfl rfl (by decide) rfl rfl
  exact ⟨h.1, h.2.2.2⟩

/-- **C7.** With a symptom date supplied: a date equal to `minDate` or to
`maxDate` (`maxDate = now`, `minDate = truncDay (now - maxSymptomAge)`)
is accepted, while a date one day beyond either bound is rejected with a
422 carrying the computed `minDate` and `maxDate` in the error body. -/
theorem c7_symptom_date_window (cfg : IssueAPIConfig) (env : IssueEnv)
    (req : IssueCodeRequest) (u : User) (realm : Realm) (code : String) (parsed : Nat)
    (hbind : env.bindResult = .ok req)
    (happ : env.ctxAuthApp = none)
    (huser : env.ctxUser = some u)
    (hrealm : env.ctxRealm = some realm)
    (hphone : req.phone = "")
    (htt : validTestTypes.contains (toLowerStr req.testType) = true)
    (hsd : req.symptomDate ≠ "")
    (hparse : env.parseDate req.symptomDate = .ok parsed)
    (hissue : env.issueResult = .ok code) :
    (parsed = truncDay (env.now - cfg.allowedSymptomAge) ∨ parsed = env.now →
      (serveHTTP cfg env).1 =
        [⟨200, .issueCodeResponse code (env.now + cfg.codeDuration)⟩])
    ∧ (parsed = env.now + 86400 →
      (serveHTTP cfg env).1 =
        [⟨422, .errSymptomDateOutOfRange parsed
            (truncDay (env.now - cfg.allowedSymptomAge)) env.now⟩])
    ∧ (86400 ≤ truncDay (env.now - cfg.allowedSymptomAge) →
       parsed = truncDay (env.now - cfg.allowedSymptomAge) - 86400 →
      (serveHTTP cfg env).1 =
        [⟨422, .errSymptomDateOutOfRange parsed
            (truncDay (env.now - cfg.allowedSymptomAge)) env.now⟩]) := by
  have hstep : serveHTTP cfg env =
      (if parsed < truncDay (env.now - cfg.allowedSymptomAge) ∨ env.now < parsed then
        ([⟨422, .errSymptomDateOutOfRange parsed
            (truncDay (env.now - cfg.allowedSymptomAge)) env.now⟩], ([] : List Effect))
      else ([⟨200, .issueCodeResponse code (env.now + cfg.codeDuration)⟩],
        [.insertedCode code])) := by
    rw [serveHTTP_user_realm cfg env req u realm hbind happ huser hrealm,
      afterRealm_no_phone cfg env { req with testType := toLowerStr req.testType }
        realm hphone]
    simp only [afterSMSCheck, htt, if_true, checkSymptomDate]
    rw [if_pos hsd]
    simp only [hparse]
    by_cases hc : parsed < truncDay (env.now - cfg.allowedSymptomAge) ∨ env.now < parsed
    · rw [if_pos hc]
      rw [if_pos hc]
    · rw [if_neg hc]
      rw [if_neg hc]
      simp only [issueAndDispatch, hissue]
  have hminmax : truncDay (env.now - cfg.allowedSymptomAge) ≤ env.now :=
    le_trans (Nat.div_mul_le_self _ _) (Nat.sub_le _ _)
  refine ⟨?_, ?_, ?_⟩
  · intro hcase
    rw [hstep, if_neg (by rcases hcase with h | h <;> omega)]
  · intro hcase
    rw [hstep, if_pos (by omega)]
  · intro hge hcase
    rw [hstep, if_pos (by omega)]

theorem c7_symptom_date_window_witness :
    (serveHTTP exCfg c7Env).1 = [⟨200, .issueCodeResponse "12345678" 203600⟩] := by
  have h := c7_symptom_date_window exCfg c7Env ⟨"confirmed", "2020-01-02", ""⟩
    ⟨"a@b", false, false, [], 0⟩ ⟨1⟩ "12345678" 86400
    rfl rfl rfl rfl rfl (by decide) (by decide) rfl rfl
  exact h.1 (Or.inl (by decide))

/-- **C9** (counterexample).  A request whose body fails JSON binding is
answered with HTTP 200, not with the 422 the claim states. -/
theorem c9_counterexample_status_not_422 :
    (serveHTTP exCfg c9Env).1.map Response.status = [200]
    ∧ (serveHTTP exCfg c9Env).1.map Response.status ≠ [422] := by
  exact ⟨rfl, by decide⟩

/-- **C9** (amended).  For every issuance request whose body fails JSON
binding, the endpoint responds with HTTP 200 whose body is an
`{error: string}` object describing the bind failure, and nothing is
persisted. -/
theorem c9_bind_failure_ok_with_error_body (cfg : IssueAPIConfig) (env : IssueEnv)
    (e : String) (hbind : env.bindResult = .error e) :
    serveHTTP cfg env = ([⟨200, .errInvalidRequest e⟩], [])
    ∧ (Body.errInvalidRequest e).isErrorObject = true := by
  exact ⟨by simp only [serveHTTP, hbind], rfl⟩

theorem c9_bind_failure_ok_with_error_body_witness :
    serveHTTP exCfg c9Env = ([⟨200, .errInvalidRequest "EOF"⟩], []) :=
  (c9_bind_failure_ok_with_error_body exCfg c9Env "EOF" rfl).1

end ENVerification
